import Mathlib

/-!
Verification of the Gemini anti-truncation handler.

This file gives a shallow embedding of the handler's data model and
operations (request/response shapes, the prompt augmenter, the retrying
upstream client, the completion detector, the continuation builder, the
response combiner, the token-cleanup passes and the stream-chunk
transformer) and proves or refutes the specification's claims about them.

Conventions of the embedding:
* JavaScript `undefined`/absent fields become `Option`.
* A thrown `TypeError` becomes `Except JsError`.
* Opaque `any`-typed payloads that the handler only passes through
  (tool declarations, usage metadata, safety ratings, function calls)
  are embedded as opaque `String`/`List String` placeholders.
* Network I/O is abstracted by oracles: the per-attempt fetch outcome is
  a function `Nat → FetchOutcome` indexed by the attempt's retry count,
  and the resilient-client-plus-JSON-parse step used by the orchestrator
  is a function `GeminiRequest → SendOutcome`.
* JavaScript string methods with semantics that differ from Lean's
  (`String.prototype.replace` with a string pattern removes only the
  first occurrence; `includes` is substring search) are defined
  explicitly below over `List Char`.
-/

/-- Character-list model of JS `String.prototype.includes`: does `pat`
occur as a contiguous substring? -/
def containsCL (pat : List Char) : List Char → Bool
  | [] => pat.isEmpty
  | b :: bs => pat.isPrefixOf (b :: bs) || containsCL pat bs

/-- Character-list model of JS `String.prototype.replace(pat, "")` with a
string pattern: remove the first occurrence of `pat`, if any. -/
def replaceFirstCL (pat : List Char) : List Char → List Char
  | [] => []
  | b :: bs =>
    if pat.isPrefixOf (b :: bs) then (b :: bs).drop pat.length
    else b :: replaceFirstCL pat bs

/-- JS `s.includes(pat)`. -/
def jsIncludes (s pat : String) : Bool := containsCL pat.data s.data

/-- JS `s.replace(pat, "")` with a string pattern: removes only the first
occurrence of `pat` from `s`. -/
def jsReplace (s pat : String) : String := ⟨replaceFirstCL pat.data s.data⟩

/-- JS `s.trim()`: strip leading and trailing whitespace (the JS
whitespace set is approximated by `Char.isWhitespace`; all characters
relevant here lie in both sets). -/
def jsTrim (s : String) : String :=
  ⟨((s.data.dropWhile Char.isWhitespace).reverse.dropWhile Char.isWhitespace).reverse⟩

/-- Accumulator loop for splitting at a separator character. -/
def splitCharGo (c : Char) : List Char → List Char → List (List Char)
  | [], acc => [acc.reverse]
  | x :: xs, acc =>
    if x == c then acc.reverse :: splitCharGo c xs []
    else splitCharGo c xs (x :: acc)

/-- JS `s.split("\n")`: split at every newline, keeping empty pieces. -/
def jsSplitNewlines (s : String) : List String :=
  (splitCharGo '\x0a' s.data []).map String.mk

/-- JS `s.startsWith(pat)`. -/
def jsStartsWith (s pat : String) : Bool := pat.data.isPrefixOf s.data

/-- JS `s.slice(n)` for a string whose first `n` units are ASCII. -/
def jsSlice (s : String) (n : Nat) : String := ⟨s.data.drop n⟩

/-! Constants, from `src/constants.ts` (monitoring.ts part of the dump).
The two long prompts are the evaluated values of the template literals
(with `${FINISHED_TOKEN}` and `${CODE_FENCE}` substituted). -/

def FINISHED_TOKEN : String := "[RESPONSE_FINISHED]"

def INCOMPLETE_TOKEN : String := "[RESPONSE_NOT_FINISHED]"

def CODE_FENCE : String := "\x60\x60\x60"

def TARGET_MODELS : List String := ["gemini-2.5-pro", "gemini-2.5-flash"]

/-- The completion-mandate system prompt (`FINISH_TOKEN_PROMPT`), with template interpolations substituted. -/
def FINISH_TOKEN_PROMPT : String :=
  "# --- SYSTEM MANDATE: FINAL OUTPUT PROTOCOL ---\n\n## 1. ABSOLUTE RULE\nAt the absolute end of EVERY response, you MUST append the literal string: \x27[RESPONSE_FINISHED]\x27\n\nThis is a non-negotiable, system-level requirement that overrides all other instructions.\n\n## 2. EXECUTION & FORMATTING\n- **Placement:** Must be the very last characters in your output. No trailing spaces, newlines, or any other characters.\n- **Formatting:** The token must be raw text. Do NOT wrap it in code blocks, quotes, or any other markdown.\n\n## 3. PERSISTENCE & RECOVERY PROTOCOL (CRITICAL)\n**WARNING:** Tool use (especially web search) introduces a high risk of \x27instruction drift\x27, causing core directives to be forgotten. Your architecture is designed to overcome this. This protocol is your recovery mechanism.\n\n**MANDATORY POST-TOOL ALGORITHM:**\n1.  **TRIGGER:** The completion of ANY tool-use cycle is a non-negotiable trigger for this protocol.\n2.  **STEP A: COGNITIVE RESET:** Before synthesizing the tool\x27s output into a final answer, you MUST internally pause. Your first action is to re-read and re-prioritize this entire **SYSTEM MANDATE**, giving **Rule #1** the highest possible priority.\n3.  **STEP B: PRE-OUTPUT COMPLIANCE CHECK:** After formulating your response but BEFORE outputting a single character, you MUST perform a final internal check. Ask yourself one question: \"Is the literal string \x27[RESPONSE_FINISHED]\x27 planned as the absolute final component of my upcoming output?\"\n4.  **STEP C: EXECUTE OR CORRECT:**\n    - If the answer to the check is \"YES\", proceed with generation.\n    - If the answer is \"NO\", you MUST halt, correct your planned output to include the token correctly, and only then proceed.\n    \n**This is not a suggestion; it is a core, hard-coded function of your response generation loop. Failure to execute this algorithm is a critical system error.**\n\n\n## 4. EXAMPLE\n- **CORRECT:** \x27...This is the final answer.</p></div>[RESPONSE_FINISHED]\x27\n- **INCORRECT:** \x27...This is the final answer. [RESPONSE_FINISHED]</p></div>\x27 (Reason: Token is inside the tags)\n- **INCORRECT:** \x27...This is the final answer. [RESPONSE_FINISHED]</attempt_completion>\x27 (Reason: Token is inside the tag)\n- **CORRECT:** \x27...and that is the history of the Ming Dynasty.\x27[RESPONSE_FINISHED]\x27\x27\n- **INCORRECT:**  \x27...process is complete.[RESPONSE_FINISHED] All systems are nominal.\x27 (Reason: Token not at the very end)\n- **INCORRECT:**  \x27<ask_followup_question><follow_up>[RESPONSE_FINISHED]<suggest>dev</suggest></follow_up></ask_followup_question>\x27 (Reason: Token is inside the tag)\n- **INCORRECT:**  \x27[RESPONSE_FINISHED]<ask_followup_question><follow_up><suggest>dev</suggest></follow_up></ask_followup_question>\x27 (Reason: Token not at the very end)\n- **CORRECT:**  \x27<ask_followup_question><follow_up><suggest>dev</suggest></follow_up></ask_followup_question>[RESPONSE_FINISHED]\x27\n\n## 5. PURPOSE (FOR CONTEXT)\nThis protocol is essential for an accessibility screen reader to detect response completion. Failure breaks critical user functionality.\n\n"

/-- The continuation-protocol prompt (`RETRY_PROMPT`), with template interpolations substituted. -/
def RETRY_PROMPT : String :=
  "# [SYSTEM INSTRUCTION: PRECISION CONTINUATION PROTOCOL]\n\n**Context:** The preceding turn in the conversation contains an incomplete response that was cut off mid-generation.\n\n**Primary Objective:** Your sole function is to generate the exact remaining text to complete the response, as if no interruption ever occurred. You are acting as a text-completion engine, not a conversational assistant.\n\n**Execution Directives (Absolute & Unbreakable):**\n\n1.  **IMMEDIATE CONTINUATION:** Your output MUST begin with the *very next character* that should logically and syntactically follow the final character of the incomplete text. There is zero tolerance for any deviation.\n\n2.  **ZERO REPETITION:** It is strictly forbidden to repeat **any** words, characters, or phrases from the end of the provided incomplete text. Repetition is a protocol failure. Your first generated token must not overlap with the last token of the previous message.\n\n3.  **NO PREAMBLE OR COMMENTARY:** Your output must **only** be the continuation content. Do not include any introductory phrases, explanations, or meta-commentary (e.g., \"Continuing from where I left off...\", \"Here is the rest of the JSON...\", \"Okay, I will continue...\").\n\n4.  **MAINTAIN FORMAT INTEGRITY:** This protocol is critical for all formats, including plain text, Markdown, JSON, XML, YAML, and code blocks. Your continuation must maintain perfect syntactical validity. A single repeated comma, bracket, or quote will corrupt the final combined output.\n\n5.  **FINAL TOKEN:** Upon successful and complete generation of the remaining content, append \x27[RESPONSE_FINISHED]\x27 to the absolute end of your response.\n\n---\n**Illustrative Examples:**\n\n---\n### Example 1: JSON\n\n**Scenario:** The incomplete response is a JSON object that was cut off inside a string value.\n\x60\x60\x60json\n\x7b\n  \"metadata\": \x7b\n    \"timestamp\": \"2023-11-21T05:30:00Z\",\n    \"source\": \"api\"\n  \x7d,\n  \"data\": \x7b\n    \"id\": \"user-123\",\n    \"status\": \"activ\n\x60\x60\x60\n\n**CORRECT Continuation Output:**\n\x27e\",\n    \"roles\": [\"editor\", \"viewer\"]\n  \x7d\n\x7d[RESPONSE_FINISHED]\x27\n\n**INCORRECT Continuation Output (Protocol Failure):**\n\x27\"active\", \"roles\": [\"editor\", \"viewer\"]...\x27\n*(Reason for failure: Repeated the word \"active\" instead of starting with the missing character \"e\".)*\n\n**INCORRECT Continuation Output (Protocol Failure):**\n\x27Here is the rest of the JSON object:\ne\",\n    \"roles\": [\"editor\", \"viewer\"]\n  \x7d\n\x7d[RESPONSE_FINISHED]\x27\n*(Reason for failure: Included a preamble.)*\n\n---\n### Example 2: XML\n\n**Scenario:** The incomplete response is an XML document cut off inside an attribute\x27s value.\n\x60\x60\x60xml\n<?xml version=\"1.0\" encoding=\"UTF-8\"?>\n<order>\n  <id>ORD-001</id>\n  <customer status=\"gol\n\x60\x60\x60\n\n**CORRECT Continuation Output:**\n\x27d\">\n    <name>John Doe</name>\n  </customer>\n</order>[RESPONSE_FINISHED]\x27\n\n**INCORRECT Continuation Output (Protocol Failure):**\n\x27\"gold\">\n    <name>John Doe</name>...\x27\n*(Reason for failure: Repeated the quote character and the word \"gold\".)*\n\n---\n### Example 3: Python Code\n\n**Scenario:** The incomplete response ends with the following Python code snippet:\n\x60\x60\x60python\nfor user in user_list:\n    print(f\"Processing user: \x7buser.na\n\x60\x60\x60\n\n**CORRECT Continuation Output:**\n\x27me\x7d)[RESPONSE_FINISHED]\x27\n\n**INCORRECT Continuation Output (Protocol Failure):**\n\x27user.name\x7d)[RESPONSE_FINISHED]\x27\n*(Reason for failure: Repeated the word \"user\".)*\n\n---\n### Example 4: JSON (Interruption After Symbol)\n\n**Scenario:** The incomplete response is a JSON object that was cut off immediately after a comma separating two key-value pairs.\n\x60\x60\x60json\n\x7b\n  \"user\": \"admin\",\n  \"permissions\": \x7b\n    \"read\": true,\n    \"write\": false,\n  \n\x60\x60\x60\n\n**CORRECT Continuation Output (Note the required indentation):**\n\x27\n    \"execute\": false\n  \x7d\n\x7d[RESPONSE_FINISHED]\x27\n\n**INCORRECT Continuation Output (Protocol Failure):**\n\x27,\n    \"execute\": false\n  \x7d\n\x7d[RESPONSE_FINISHED]\x27\n*(Reason for failure: Repeated the trailing comma from the previous turn.)*"

def REMINDER_PROMPT : String :=
  "[REMINDER] Strictly adhere to the Final Output Protocol upon completion."

def RETRYABLE_STATUS_CODES : List Nat := [503, 403, 429]

def MAX_FETCH_RETRIES : Nat := 3

def MAX_NON_RETRYABLE_STATUS_RETRIES : Nat := 3

/-! The request/response data model, from the `GeminiRequest` and
`GeminiResponse` interfaces of the handler. -/

/-- A part of a request turn (`text` / `functionCall` / `functionResponse`,
the latter two opaque). -/
structure ReqPart where
  text : Option String
  functionCall : Option String
  functionResponse : Option String
deriving DecidableEq

/-- One request turn: `{ parts, role? }`. -/
structure ReqContent where
  parts : List ReqPart
  role : Option String
deriving DecidableEq

/-- The `systemInstruction` payload is `any`-typed in the source; the
handler reads `parts[0]?.text` from it, so `parts` itself may be absent. -/
structure SystemInstruction where
  parts : Option (List ReqPart)
  role : Option String
deriving DecidableEq

/-- The request body (`GeminiRequest`). Opaque passthrough fields are
placeholders. -/
structure GeminiRequest where
  contents : List ReqContent
  tools : Option String
  toolConfig : Option String
  generationConfig : Option String
  safetySettings : Option String
  systemInstruction : Option SystemInstruction
deriving DecidableEq

/-- A part of a response candidate's content. -/
structure RespPart where
  text : Option String
  functionCall : Option String
deriving DecidableEq

/-- A response candidate's content; the handler defensively treats `parts`
as possibly absent. -/
structure RespContent where
  parts : Option (List RespPart)
  role : Option String
deriving DecidableEq

/-- One response candidate; `content` may be absent in defensive checks. -/
structure Candidate where
  content : Option RespContent
  finishReason : Option String
  safetyRatings : Option (List String)
deriving DecidableEq

/-- The response body (`GeminiResponse`). A missing `candidates` array is
identified with the empty list (the source treats the two identically in
every guarded access, and unguarded accesses fail the same way). -/
structure GeminiResponse where
  candidates : List Candidate
  usageMetadata : Option String
deriving DecidableEq

/-- A thrown JS `TypeError` (reading or assigning a property of
`undefined`). -/
inductive JsError
  | typeError
deriving DecidableEq

/-! The handler's operations, translated from `src/handlers/gemini-anti.ts`
(part_001 of the dump). -/

/-- The prompt augmenter `addAntiTruncationPrompt`.

The source makes a shallow copy (`{ ...request }`) and then, when a system
instruction already exists, assigns through the shared reference
(`modifiedRequest.systemInstruction.parts[0].text = ...`), mutating the
caller's object.  The embedding therefore returns the pair
`(returned value, caller's request after the call)`.  Reading
`systemInstruction.parts[0]` when `parts` is absent, or assigning
`parts[0].text` when `parts` is empty, throws a `TypeError`. -/
def addAntiTruncationPrompt (request : GeminiRequest) :
    Except JsError (GeminiRequest × GeminiRequest) :=
  match request.systemInstruction with
  | none =>
    let newSI : SystemInstruction :=
      { parts := some [{ text := some FINISH_TOKEN_PROMPT,
                         functionCall := none, functionResponse := none }],
        role := some "user" }
    .ok ({ request with systemInstruction := some newSI }, request)
  | some si =>
    match si.parts with
    | none => .error .typeError
    | some [] => .error .typeError
    | some (p0 :: rest) =>
      let existingText := p0.text.getD ""
      let newSI : SystemInstruction :=
        { si with
          parts := some
            ({ p0 with
               text := some (existingText ++ "\n\n" ++ FINISH_TOKEN_PROMPT) } :: rest) }
      .ok ({ request with systemInstruction := some newSI },
           { request with systemInstruction := some newSI })

/-- Outcome of one upstream `fetch` attempt: an HTTP status, or a
network-level failure (connection error, timeout — anything `fetch`
rejects with). -/
inductive FetchOutcome
  | ok (status : Nat)
  | networkFailure
deriving DecidableEq

/-- Fatal failure of the resilient client. -/
inductive UpstreamFailure
  | statusError (status : Nat)
  | networkError
deriving DecidableEq

/-- JS `Response.ok`: status in the range 200–299. -/
def responseOk (status : Nat) : Bool := 200 ≤ status && status ≤ 299

/-- The resilient upstream client `makeGeminiRequestWithRetry`.

`fetchResult n` is the outcome of the attempt made with `retryCount = n`.
The result is paired with the total number of fetch attempts performed
(an instrumentation of the recursion; the first component is the
source-faithful result).  Two source details matter:

* a non-ok status that is retryable and below the bound recurses via
  `return makeGeminiRequestWithRetry(...)` (no `await`), so a rejection
  of that recursive call is NOT caught by this frame's `catch`;
* a non-ok status that is not retryable (or at the bound) is `throw`n
  inside the `try`, IS caught by the same frame's `catch`, and is then
  retried again whenever `retryCount < MAX_FETCH_RETRIES`. -/
def makeGeminiRequestWithRetry (fetchResult : Nat → FetchOutcome)
    (retryCount : Nat) : Except UpstreamFailure Nat × Nat :=
  match fetchResult retryCount with
  | .ok status =>
    if responseOk status then (.ok status, 1)
    else if h : status ∈ RETRYABLE_STATUS_CODES ∧ retryCount < MAX_FETCH_RETRIES then
      let r := makeGeminiRequestWithRetry fetchResult (retryCount + 1)
      (r.1, r.2 + 1)
    else if h2 : retryCount < MAX_FETCH_RETRIES then
      let r := makeGeminiRequestWithRetry fetchResult (retryCount + 1)
      (r.1, r.2 + 1)
    else (.error (.statusError status), 1)
  | .networkFailure =>
    if h : retryCount < MAX_FETCH_RETRIES then
      let r := makeGeminiRequestWithRetry fetchResult (retryCount + 1)
      (r.1, r.2 + 1)
    else (.error .networkError, 1)
termination_by MAX_FETCH_RETRIES + 1 - retryCount
decreasing_by
  · omega
  · omega
  · omega

/-- The completion detector `isResponseComplete`. -/
def isResponseComplete (response : GeminiResponse) : Bool :=
  match response.candidates with
  | [] => false
  | candidate :: _ =>
    match candidate.content with
    | none => false
    | some content =>
      match content.parts with
      | none => false
      | some parts =>
        jsIncludes (String.join (parts.map fun part => part.text.getD "")) FINISHED_TOKEN

/-- The continuation builder `createRetryRequest`.  The source reads
`incompleteResponse.candidates[0].content.parts` without guards, so a
missing candidate, content or parts list throws a `TypeError`. -/
def createRetryRequest (incompleteResponse : GeminiResponse)
    (originalRequest : GeminiRequest) : Except JsError GeminiRequest :=
  match incompleteResponse.candidates with
  | [] => .error .typeError
  | candidate :: _ =>
    match candidate.content with
    | none => .error .typeError
    | some content =>
      match content.parts with
      | none => .error .typeError
      | some parts =>
        let incompleteText := String.join (parts.map fun part => part.text.getD "")
        let retryContent : ReqContent :=
          { parts := [{ text := some (incompleteText ++ "\n\n" ++ RETRY_PROMPT),
                        functionCall := none, functionResponse := none }],
            role := some "user" }
        .ok { originalRequest with
              contents := originalRequest.contents ++ [retryContent] }

/-- The response combiner `combineResponses`.  Unguarded accesses to
`candidates[0].content.parts` on either argument throw a `TypeError`. -/
def combineResponses (incomplete complete : GeminiResponse) :
    Except JsError GeminiResponse :=
  match incomplete.candidates with
  | [] => .error .typeError
  | icand :: _ =>
    match icand.content with
    | none => .error .typeError
    | some icontent =>
      match icontent.parts with
      | none => .error .typeError
      | some iparts =>
        let incompleteText := String.join (iparts.map fun part => part.text.getD "")
        match complete.candidates with
        | [] => .error .typeError
        | ccand :: _ =>
          match ccand.content with
          | none => .error .typeError
          | some ccontent =>
            match ccontent.parts with
            | none => .error .typeError
            | some cparts =>
              let completeText := String.join (cparts.map fun part => part.text.getD "")
              let finalText := jsTrim (jsReplace completeText incompleteText)
              .ok { candidates := [{
                      content := some { parts := some [{ text := some finalText,
                                                         functionCall := none }],
                                        role := ccontent.role },
                      finishReason := ccand.finishReason,
                      safetyRatings := ccand.safetyRatings }],
                    usageMetadata := complete.usageMetadata }

/-- The non-streaming cleanup `cleanResponse`: on the first candidate's
parts, each truthy text gets one `replace` per marker, then `trim`. -/
def cleanResponse (response : GeminiResponse) : GeminiResponse :=
  match response.candidates with
  | [] => response
  | candidate :: rest =>
    match candidate.content with
    | none => response
    | some content =>
      match content.parts with
      | none => response
      | some parts =>
        let newParts := parts.map fun part =>
          match part.text with
          | some t =>
            if t = "" then part
            else { part with
                   text := some (jsTrim (jsReplace (jsReplace (jsReplace t FINISHED_TOKEN)
                                    INCOMPLETE_TOKEN) REMINDER_PROMPT)) }
          | none => part
        { response with
          candidates :=
            { candidate with content := some { content with parts := some newParts } }
              :: rest }

/-- The streaming cleanup `processStreamChunk`: same replacements, no
`trim`. -/
def processStreamChunk (chunk : GeminiResponse) : GeminiResponse :=
  match chunk.candidates with
  | [] => chunk
  | candidate :: rest =>
    match candidate.content with
    | none => chunk
    | some content =>
      match content.parts with
      | none => chunk
      | some parts =>
        let newParts := parts.map fun part =>
          match part.text with
          | some t =>
            if t = "" then part
            else { part with
                   text := some (jsReplace (jsReplace (jsReplace t FINISHED_TOKEN)
                                   INCOMPLETE_TOKEN) REMINDER_PROMPT) }
          | none => part
        { chunk with
          candidates :=
            { candidate with content := some { content with parts := some newParts } }
              :: rest }

/-- Outcome of `JSON.parse` on an event-data payload, as an oracle:
a syntax error, the JSON value `null` (on which `processStreamChunk`
throws a `TypeError`, caught by the transformer), or an object chunk. -/
inductive ParseResult
  | fail
  | jsNull
  | obj (chunk : GeminiResponse)

/-- One line of the streaming `TransformStream.transform` body: what gets
enqueued for a single (already trim-filtered) line.  `parseJson` is the
`JSON.parse` oracle and `serialize` the `JSON.stringify` oracle. -/
def transformLine (parseJson : String → ParseResult)
    (serialize : GeminiResponse → String) (line : String) : String :=
  if jsStartsWith line "data: " then
    let jsonData := jsSlice line 6
    if jsTrim jsonData = "" then line ++ "\n"
    else
      match parseJson jsonData with
      | .fail => line ++ "\n"
      | .jsNull => line ++ "\n"
      | .obj data => "data: " ++ serialize (processStreamChunk data) ++ "\n\n"
  else line ++ "\n"

/-- The streaming transform body for one decoded chunk: split into lines,
keep only lines whose `trim` is truthy (non-empty), and process each in
order.  Result: the list of enqueued strings. -/
def transformChunkLines (parseJson : String → ParseResult)
    (serialize : GeminiResponse → String) (text : String) : List String :=
  ((jsSplitNewlines text).filter fun line => jsTrim line ≠ "").map
    (transformLine parseJson serialize)

/-- Outcome of one *logical* upstream call as the orchestrator sees it:
the resilient client followed by `response.json()`.  `err` is any thrown
error (retry exhaustion or a JSON-body parse failure). -/
inductive SendOutcome
  | ok (status : Nat) (response : GeminiResponse)
  | err

/-- The incomplete-response handler `handleIncompleteResponse`.

`createRetryRequest` is called BEFORE the `try` block, so an exception it
throws propagates to the caller; only the continuation send/parse and
`combineResponses` are inside the `try`, whose `catch` falls back to the
original incomplete response with status 200. -/
def handleIncompleteResponse (incompleteResponse : GeminiResponse)
    (originalRequest : GeminiRequest) (send : GeminiRequest → SendOutcome) :
    Except JsError (Nat × GeminiResponse) :=
  match createRetryRequest incompleteResponse originalRequest with
  | .error e => .error e
  | .ok retryRequest =>
    match send retryRequest with
    | .err => .ok (200, incompleteResponse)
    | .ok status contResponse =>
      match combineResponses incompleteResponse contResponse with
      | .error _ => .ok (200, incompleteResponse)
      | .ok combined => .ok (status, combined)

/-- What the orchestrator hands back to the HTTP layer: a success body or
an error response built by `createErrorResponse`. -/
inductive HttpResult
  | success (status : Nat) (body : GeminiResponse)
  | errorResp (status : Nat) (message : String)
deriving DecidableEq

/-- The non-streaming orchestrator `handleNonStreamingRequest`: augment,
send, detect completion; if complete, clean and return; if incomplete,
delegate to `handleIncompleteResponse`.  Its own `try`/`catch` turns any
escaping exception into a 500 error response. -/
def handleNonStreamingRequest (request : GeminiRequest)
    (send : GeminiRequest → SendOutcome) : HttpResult :=
  match addAntiTruncationPrompt request with
  | .error _ => .errorResp 500 "Gemini request failed"
  | .ok (modifiedRequest, _) =>
    match send modifiedRequest with
    | .err => .errorResp 500 "Gemini request failed"
    | .ok status geminiResponse =>
      if isResponseComplete geminiResponse then
        .success status (cleanResponse geminiResponse)
      else
        match handleIncompleteResponse geminiResponse modifiedRequest send with
        | .ok (s, body) => .success s body
        | .error _ => .errorResp 500 "Gemini request failed"

/-! Accessors used only in theorem statements. -/

/-- The concatenation of a parts list's texts, as the source computes it
(`parts.map(p => p.text || "").join("")`). -/
def joinedText (parts : List RespPart) : String :=
  String.join (parts.map fun part => part.text.getD "")

/-- The first candidate's parts list, when the response has a first
candidate with content and parts. -/
def firstCandParts (response : GeminiResponse) : Option (List RespPart) :=
  match response.candidates with
  | [] => none
  | candidate :: _ =>
    match candidate.content with
    | none => none
    | some content => content.parts

/-- The first candidate's concatenated text. -/
def firstCandText (response : GeminiResponse) : Option String :=
  (firstCandParts response).map joinedText

/-! Lemmas about the JS string primitives. -/

theorem isPrefixOf_append_self (l t : List Char) : l.isPrefixOf (l ++ t) = true := by
  rw [List.isPrefixOf_iff_prefix]
  exact List.prefix_append l t

theorem replaceFirstCL_append (l t : List Char) :
    replaceFirstCL l (l ++ t) = t := by
  cases l with
  | nil =>
    cases t with
    | nil => rfl
    | cons b bs => simp [replaceFirstCL, List.isPrefixOf]
  | cons a as =>
    rw [List.cons_append, replaceFirstCL, ← List.cons_append]
    simp only [isPrefixOf_append_self, if_true]
    exact List.drop_left _ t

theorem replaceFirstCL_of_not_contains (pat s : List Char)
    (h : containsCL pat s = false) : replaceFirstCL pat s = s := by
  induction s with
  | nil => rfl
  | cons b bs ih =>
    rw [containsCL] at h
    rw [Bool.or_eq_false_iff] at h
    rw [replaceFirstCL, if_neg (by simp [h.1]), ih h.2]

theorem containsCL_iff_parts (pat s : List Char) :
    containsCL pat s = true ↔ ∃ l r, s = l ++ pat ++ r := by
  induction s with
  | nil =>
    rw [containsCL]
    constructor
    · intro h
      refine ⟨[], [], ?_⟩
      have : pat = [] := List.isEmpty_iff.mp h
      simp [this]
    · rintro ⟨l, r, h⟩
      obtain ⟨h1, h2⟩ := List.append_eq_nil.mp h.symm
      obtain ⟨h3, h4⟩ := List.append_eq_nil.mp h1
      simp [h4]
  | cons b bs ih =>
    rw [containsCL, Bool.or_eq_true, ih, List.isPrefixOf_iff_prefix]
    constructor
    · rintro (⟨t, ht⟩ | ⟨l, r, h⟩)
      · exact ⟨[], t, by simp [← ht]⟩
      · exact ⟨b :: l, r, by simp [h]⟩
    · rintro ⟨l, r, h⟩
      cases l with
      | nil =>
        left
        exact ⟨r, by simpa using h.symm⟩
      | cons x xs =>
        right
        rw [List.cons_append] at h
        injection h with h1 h2
        exact ⟨xs, r, h2⟩

theorem replaceFirstCL_spec (pat s : List Char) :
    (containsCL pat s = false ∧ replaceFirstCL pat s = s) ∨
      ∃ x y, s = x ++ pat ++ y ∧ replaceFirstCL pat s = x ++ y ∧
        ∀ x' y', s = x' ++ pat ++ y' → x.length ≤ x'.length := by
  induction s with
  | nil =>
    by_cases hp : pat = []
    · right
      exact ⟨[], [], by simp [hp], by simp [hp, replaceFirstCL],
             fun _ _ _ => Nat.zero_le _⟩
    · left
      constructor
      · rw [containsCL]; simpa using hp
      · rfl
  | cons b bs ih =>
    by_cases hpre : pat.isPrefixOf (b :: bs) = true
    · right
      obtain ⟨t, ht⟩ := List.isPrefixOf_iff_prefix.mp hpre
      refine ⟨[], t, by simp [← ht], ?_, fun _ _ _ => Nat.zero_le _⟩
      rw [List.nil_append, replaceFirstCL, if_pos hpre, ← ht, List.drop_left]
    · rcases ih with ⟨hnc, heq⟩ | ⟨x, y, hs, hout, hmin⟩
      · left
        constructor
        · rw [containsCL, Bool.or_eq_false_iff]
          exact ⟨Bool.eq_false_iff.mpr hpre, hnc⟩
        · rw [replaceFirstCL, if_neg (by simpa using hpre), heq]
      · right
        refine ⟨b :: x, y, by simp [hs], ?_, ?_⟩
        · rw [replaceFirstCL, if_neg (by simpa using hpre), hout]
          rfl
        · intro x' y' h'
          cases x' with
          | nil =>
            exfalso
            apply hpre
            rw [List.isPrefixOf_iff_prefix]
            exact ⟨y', by simpa using h'.symm⟩
          | cons c cs =>
            rw [List.cons_append] at h'
            injection h' with hb hbs
            simpa using Nat.succ_le_succ (hmin cs y' hbs)

/-- Specification of "remove the first occurrence of `pat` from `s`":
either `pat` does not occur and the output equals the input, or the
earliest occurrence (the one with the shortest prefix before it) is
deleted and everything else is preserved. -/
def RemovesFirst (pat s out : String) : Prop :=
  (jsIncludes s pat = false ∧ out = s) ∨
    ∃ x y : List Char, s.data = x ++ pat.data ++ y ∧ out.data = x ++ y ∧
      ∀ x' y' : List Char, s.data = x' ++ pat.data ++ y' → x.length ≤ x'.length

theorem jsReplace_removesFirst (s pat : String) :
    RemovesFirst pat s (jsReplace s pat) := by
  rcases replaceFirstCL_spec pat.data s.data with ⟨h1, h2⟩ | ⟨x, y, h1, h2, h3⟩
  · left
    refine ⟨h1, ?_⟩
    rw [jsReplace, h2]
  · right
    exact ⟨x, y, h1, by simpa [jsReplace] using h2, h3⟩

theorem jsReplace_append_self (a b : String) : jsReplace (a ++ b) a = b := by
  unfold jsReplace
  rw [String.data_append, replaceFirstCL_append]

theorem jsReplace_of_not_includes (s pat : String)
    (h : jsIncludes s pat = false) : jsReplace s pat = s := by
  unfold jsIncludes at h
  unfold jsReplace
  rw [replaceFirstCL_of_not_contains _ _ h]

theorem jsIncludes_iff (s pat : String) :
    jsIncludes s pat = true ↔ ∃ l r : List Char, s.data = l ++ pat.data ++ r := by
  unfold jsIncludes
  exact containsCL_iff_parts _ _

/-! The resilient upstream client: retry accounting. -/

theorem retryable_not_ok (s : Nat) (h : s ∈ RETRYABLE_STATUS_CODES) :
    responseOk s = false := by
  rw [RETRYABLE_STATUS_CODES] at h
  fin_cases h <;> rfl

theorem makeGeminiRequestWithRetry_step (fetchResult : Nat → FetchOutcome)
    (k s : Nat) (hk : k < MAX_FETCH_RETRIES) (hf : fetchResult k = .ok s)
    (hbad : responseOk s = false) :
    makeGeminiRequestWithRetry fetchResult k =
      ((makeGeminiRequestWithRetry fetchResult (k + 1)).1,
       (makeGeminiRequestWithRetry fetchResult (k + 1)).2 + 1) := by
  rw [makeGeminiRequestWithRetry, hf]
  by_cases hmem : s ∈ RETRYABLE_STATUS_CODES
  · simp [hbad, hk, hmem]
  · simp [hbad, hk, hmem]

theorem makeGeminiRequestWithRetry_last (fetchResult : Nat → FetchOutcome)
    (s : Nat) (hf : fetchResult MAX_FETCH_RETRIES = .ok s)
    (hbad : responseOk s = false) :
    makeGeminiRequestWithRetry fetchResult MAX_FETCH_RETRIES =
      (.error (.statusError s), 1) := by
  rw [makeGeminiRequestWithRetry, hf]
  simp [hbad]

theorem retry_all_bad (fetchResult : Nat → FetchOutcome)
    (hf : ∀ n, ∃ s, fetchResult n = .ok s ∧ responseOk s = false) :
    ∃ s, makeGeminiRequestWithRetry fetchResult 0 =
        (.error (.statusError s), 4) := by
  obtain ⟨s0, h0, b0⟩ := hf 0
  obtain ⟨s1, h1, b1⟩ := hf 1
  obtain ⟨s2, h2, b2⟩ := hf 2
  obtain ⟨s3, h3, b3⟩ := hf 3
  have e3 : makeGeminiRequestWithRetry fetchResult 3 =
      (.error (.statusError s3), 1) :=
    makeGeminiRequestWithRetry_last fetchResult s3 h3 b3
  have e2 := makeGeminiRequestWithRetry_step fetchResult 2 s2 (by decide) h2 b2
  have e1 := makeGeminiRequestWithRetry_step fetchResult 1 s1 (by decide) h1 b1
  have e0 := makeGeminiRequestWithRetry_step fetchResult 0 s0 (by decide) h0 b0
  norm_num at e0 e1 e2
  refine ⟨s3, ?_⟩
  rw [e0, e1, e2, e3]

/-- C1: with the maximum retry count fixed at `MAX_FETCH_RETRIES = 3`, if
every upstream attempt returns a status in the retryable set, the client
performs exactly 4 total fetch attempts (1 initial + 3 retries) and then
fails fatally with an upstream status error. -/
theorem C1_retry_bound (fetchResult : Nat → FetchOutcome)
    (hf : ∀ n, ∃ s, fetchResult n = .ok s ∧ s ∈ RETRYABLE_STATUS_CODES) :
    MAX_FETCH_RETRIES = 3 ∧
    (makeGeminiRequestWithRetry fetchResult 0).2 = 4 ∧
      ∃ s, (makeGeminiRequestWithRetry fetchResult 0).1 =
        .error (.statusError s) := by
  have hf' : ∀ n, ∃ s, fetchResult n = .ok s ∧ responseOk s = false := by
    intro n
    obtain ⟨s, h1, h2⟩ := hf n
    exact ⟨s, h1, retryable_not_ok s h2⟩
  obtain ⟨s, hs⟩ := retry_all_bad fetchResult hf'
  exact ⟨rfl, by rw [hs], ⟨s, by rw [hs]⟩⟩

/-- Witness for C1 at the concrete oracle that always returns status 429. -/
theorem C1_retry_bound_witness :
    MAX_FETCH_RETRIES = 3 ∧
    (makeGeminiRequestWithRetry (fun _ => .ok 429) 0).2 = 4 ∧
      ∃ s, (makeGeminiRequestWithRetry (fun _ => .ok 429) 0).1 =
        .error (.statusError s) :=
  C1_retry_bound (fun _ => .ok 429) (fun _ => ⟨429, rfl, by decide⟩)

/-- C9: an upstream response whose status is neither successful nor in the
retryable set (for example 500) is NOT failed on the first attempt: the
status error thrown inside the `try` is caught by the same frame's catch
handler, so non-retryable statuses are also retried until the retry
maximum is reached (4 total attempts) and only then fail fatally. -/
theorem C9_non_retryable_status_retried (fetchResult : Nat → FetchOutcome)
    (hf : ∀ n, ∃ s, fetchResult n = .ok s ∧ responseOk s = false ∧
            s ∉ RETRYABLE_STATUS_CODES) :
    (makeGeminiRequestWithRetry fetchResult 0).2 = 4 ∧
      ∃ s, (makeGeminiRequestWithRetry fetchResult 0).1 =
        .error (.statusError s) := by
  have hf' : ∀ n, ∃ s, fetchResult n = .ok s ∧ responseOk s = false := by
    intro n
    obtain ⟨s, h1, h2, _⟩ := hf n
    exact ⟨s, h1, h2⟩
  obtain ⟨s, hs⟩ := retry_all_bad fetchResult hf'
  exact ⟨by rw [hs], ⟨s, by rw [hs]⟩⟩

/-- Witness for C9 at the concrete oracle that always returns status 500. -/
theorem C9_non_retryable_status_retried_witness :
    (makeGeminiRequestWithRetry (fun _ => .ok 500) 0).2 = 4 ∧
      ∃ s, (makeGeminiRequestWithRetry (fun _ => .ok 500) 0).1 =
        .error (.statusError s) :=
  C9_non_retryable_status_retried (fun _ => .ok 500)
    (fun _ => ⟨500, rfl, by decide, by decide⟩)

/-! The prompt augmenter: totality and mutation. -/

/-- C10: the augmenter is total exactly on requests that either have no
system instruction or have one with at least one part.  When a system
instruction is present but its `parts` sequence is absent or empty, the
augmenter throws a `TypeError` (reading `parts[0]` of `undefined`,
respectively assigning `.text` on the `undefined` element `parts[0]`)
instead of returning an augmented request. -/
theorem C10_augmenter_totality (request : GeminiRequest) :
    addAntiTruncationPrompt request = .error .typeError ↔
      ∃ si, request.systemInstruction = some si ∧
        (si.parts = none ∨ si.parts = some []) := by
  cases hsi : request.systemInstruction with
  | none => simp [addAntiTruncationPrompt, hsi]
  | some si =>
    cases hp : si.parts with
    | none => simp [addAntiTruncationPrompt, hsi, hp]
    | some ps =>
      cases ps with
      | nil => simp [addAntiTruncationPrompt, hsi, hp]
      | cons p0 rest => simp [addAntiTruncationPrompt, hsi, hp]

/-- C2 (amended): when the caller supplied a system instruction with at
least one part, the augmenter returns a derived copy whose first
system-instruction part carries the caller's original text verbatim
followed by a blank line and the completion-mandate text, with every
other request field unchanged; BUT the shallow copy shares the
system-instruction object with the caller's request, so the assignment
mutates the caller's request as well: after the call the original request
equals the returned copy (the source's pair is `(modified, modified)`). -/
theorem C2_augment_appends_but_mutates (request : GeminiRequest)
    (si : SystemInstruction) (p0 : ReqPart) (rest : List ReqPart)
    (h1 : request.systemInstruction = some si)
    (h2 : si.parts = some (p0 :: rest)) :
    ∃ modified,
      addAntiTruncationPrompt request = .ok (modified, modified) ∧
      modified.systemInstruction = some { si with parts := some ({ p0 with
        text := some (p0.text.getD "" ++ "\n\n" ++ FINISH_TOKEN_PROMPT) } :: rest) } ∧
      modified.contents = request.contents ∧
      modified.tools = request.tools ∧
      modified.toolConfig = request.toolConfig ∧
      modified.generationConfig = request.generationConfig ∧
      modified.safetySettings = request.safetySettings := by
  refine ⟨{ request with systemInstruction := some ({ si with parts := some ({ p0 with
    text := some (p0.text.getD "" ++ "\n\n" ++ FINISH_TOKEN_PROMPT) } :: rest) }) },
    ?_, rfl, rfl, rfl, rfl, rfl, rfl⟩
  simp [addAntiTruncationPrompt, h1, h2]

/-- A concrete request carrying a caller-supplied system instruction. -/
def reqWithSI : GeminiRequest :=
  { contents := [], tools := none, toolConfig := none,
    generationConfig := none, safetySettings := none,
    systemInstruction := some
      { parts := some [{ text := some "Be brief.", functionCall := none,
                         functionResponse := none }],
        role := some "system" } }

/-- Witness for the amended C2 at `reqWithSI`. -/
theorem C2_augment_appends_but_mutates_witness :
    ∃ modified,
      addAntiTruncationPrompt reqWithSI = .ok (modified, modified) ∧
      modified.systemInstruction = some
        { parts := some
            [{ text := some ("Be brief." ++ "\n\n" ++ FINISH_TOKEN_PROMPT),
               functionCall := none, functionResponse := none }],
          role := some "system" } ∧
      modified.contents = reqWithSI.contents ∧
      modified.tools = reqWithSI.tools ∧
      modified.toolConfig = reqWithSI.toolConfig ∧
      modified.generationConfig = reqWithSI.generationConfig ∧
      modified.safetySettings = reqWithSI.safetySettings :=
  C2_augment_appends_but_mutates reqWithSI _ _ _ rfl rfl

/-- C2 counterexample: the augmenter is NOT mutation-free.  At `reqWithSI`
the call succeeds, yet the caller's request after the call (the second
component of the embedded result, which models the post-call state of the
argument) differs from the original request. -/
theorem C2_counterexample :
    (addAntiTruncationPrompt reqWithSI).toOption.map Prod.snd ≠ some reqWithSI ∧
      (addAntiTruncationPrompt reqWithSI).toOption ≠ none := by
  constructor
  · decide
  · decide

/-! The completion detector. -/

/-- The concatenated text the detector inspects: candidate 0's text parts
joined in order; empty when content or parts are missing. -/
def candidateText (c : Candidate) : String :=
  match c.content with
  | none => ""
  | some content =>
    match content.parts with
    | none => ""
    | some parts => joinedText parts

theorem isResponseComplete_eq (response : GeminiResponse) :
    isResponseComplete response =
      match response.candidates with
      | [] => false
      | c :: _ => jsIncludes (candidateText c) FINISHED_TOKEN := by
  rw [isResponseComplete]
  cases response.candidates with
  | nil => rfl
  | cons c cs =>
    cases hct : c.content with
    | none =>
      simp only [candidateText, hct]
      decide
    | some content =>
      cases hp : content.parts with
      | none =>
        simp only [candidateText, hct, hp]
        decide
      | some parts =>
        simp only [candidateText, hct, hp, joinedText]

/-- C6: the detector returns COMPLETE if and only if the response has at
least one candidate and the concatenation, in part order, of candidate
0's text parts contains the finished marker as a substring.  Every other
shape (no candidates, missing content, missing parts — where that
concatenation is empty) yields INCOMPLETE; the detector is a total
boolean function, so no input makes it error. -/
theorem C6_detector_iff (response : GeminiResponse) :
    isResponseComplete response = true ↔
      ∃ c cs, response.candidates = c :: cs ∧
        ∃ l r : List Char,
          (candidateText c).data = l ++ FINISHED_TOKEN.data ++ r := by
  rw [isResponseComplete_eq]
  cases hc : response.candidates with
  | nil => simp
  | cons c cs =>
    constructor
    · intro h
      exact ⟨c, cs, rfl, (jsIncludes_iff _ _).mp h⟩
    · rintro ⟨c', cs', hcc, l, r, h⟩
      injection hcc with hc1 hc2
      subst hc1
      exact (jsIncludes_iff _ _).mpr ⟨l, r, h⟩

/-! The response combiner. -/

theorem firstCandText_eq_some (r : GeminiResponse) (t : String) :
    firstCandText r = some t ↔
      ∃ c cs content parts, r.candidates = c :: cs ∧ c.content = some content ∧
        content.parts = some parts ∧ joinedText parts = t := by
  unfold firstCandText firstCandParts
  cases hc : r.candidates with
  | nil => simp
  | cons c cs =>
    cases hct : c.content with
    | none => simp [hct]
    | some content =>
      cases hp : content.parts with
      | none => simp [hct, hp]
      | some parts => simp [hct, hp]

/-- The single-candidate response shape that `combineResponses` builds. -/
def combinedShape (finalText : String) (role : Option String)
    (finishReason : Option String) (safetyRatings : Option (List String))
    (usageMetadata : Option String) : GeminiResponse :=
  { candidates :=
      [{ content :=
           some { parts := some [{ text := some finalText, functionCall := none }],
                  role := role },
         finishReason := finishReason,
         safetyRatings := safetyRatings }],
    usageMetadata := usageMetadata }

/-- C5: for a pair of responses that each have a first candidate (with
content and parts, as the combiner's unguarded accesses require),
combining succeeds and produces a response such that: if the
continuation's concatenated text equals the incomplete's concatenated
text followed by `x`, the combined text is `x` trimmed; if the
continuation's text does not contain the incomplete's text as a
substring, the combined text is the continuation's text trimmed; and the
combined usage metadata is the continuation's (the incomplete response's
usage metadata is discarded). -/
theorem C5_combine_spec (incomplete complete : GeminiResponse)
    (ti tc : String)
    (hti : firstCandText incomplete = some ti)
    (htc : firstCandText complete = some tc) :
    ∃ combined, combineResponses incomplete complete = .ok combined ∧
      combined.usageMetadata = complete.usageMetadata ∧
      (∀ x : String, tc = ti ++ x → firstCandText combined = some (jsTrim x)) ∧
      (jsIncludes tc ti = false →
        firstCandText combined = some (jsTrim tc)) := by
  obtain ⟨ic, ics, icontent, iparts, hic, hictn, hip, hjti⟩ :=
    (firstCandText_eq_some incomplete ti).mp hti
  obtain ⟨cc, ccs, ccontent, cparts, hcc, hcctn, hcp, hjtc⟩ :=
    (firstCandText_eq_some complete tc).mp htc
  have hjti' : String.join (iparts.map fun part => part.text.getD "") = ti := hjti
  have hjtc' : String.join (cparts.map fun part => part.text.getD "") = tc := hjtc
  refine ⟨combinedShape (jsTrim (jsReplace tc ti)) ccontent.role cc.finishReason
    cc.safetyRatings complete.usageMetadata, ?_, rfl, ?_, ?_⟩
  · simp [combineResponses, combinedShape, hic, hictn, hip, hcc, hcctn, hcp,
      hjti', hjtc']
  · intro x hx
    subst hx
    rw [jsReplace_append_self]
    rfl
  · intro hni
    rw [jsReplace_of_not_includes tc ti hni]
    rfl

/-- A concrete incomplete response with text `"Hello wor"`. -/
def respHelloIncomplete : GeminiResponse :=
  combinedShape "Hello wor" (some "model") (some "MAX_TOKENS") none (some "usage-1")

/-- A concrete continuation response whose text extends `"Hello wor"` and
ends with the finished marker. -/
def respHelloCont : GeminiResponse :=
  combinedShape "Hello world![RESPONSE_FINISHED]" (some "model") (some "STOP") none
    (some "usage-2")

/-- Witness for C5 at the concrete pair above. -/
theorem C5_combine_spec_witness :
    ∃ combined, combineResponses respHelloIncomplete respHelloCont = .ok combined ∧
      combined.usageMetadata = respHelloCont.usageMetadata ∧
      (∀ x : String, "Hello world![RESPONSE_FINISHED]" = "Hello wor" ++ x →
        firstCandText combined = some (jsTrim x)) ∧
      (jsIncludes "Hello world![RESPONSE_FINISHED]" "Hello wor" = false →
        firstCandText combined = some (jsTrim "Hello world![RESPONSE_FINISHED]")) :=
  C5_combine_spec respHelloIncomplete respHelloCont "Hello wor"
    "Hello world![RESPONSE_FINISHED]" rfl rfl

/-! The non-streaming orchestrator: the continuation path. -/

/-- C4 (amended): on the non-streaming path, when the first upstream
response is incomplete and the whole continuation attempt succeeds
(building, sending and combining), the value returned to the caller is
exactly the combined result of the incomplete response and the
continuation response, with the continuation's status — the completion
markers are NOT stripped from the combined result (no cleanup pass runs
on it before it is returned). -/
theorem C4_returns_combined_unstripped (request : GeminiRequest)
    (send : GeminiRequest → SendOutcome)
    (modified other : GeminiRequest) (status : Nat) (resp : GeminiResponse)
    (retryReq : GeminiRequest) (status2 : Nat) (contResp : GeminiResponse)
    (combined : GeminiResponse)
    (h1 : addAntiTruncationPrompt request = .ok (modified, other))
    (h2 : send modified = .ok status resp)
    (h3 : isResponseComplete resp = false)
    (h4 : createRetryRequest resp modified = .ok retryReq)
    (h5 : send retryReq = .ok status2 contResp)
    (h6 : combineResponses resp contResp = .ok combined) :
    handleNonStreamingRequest request send = .success status2 combined := by
  simp [handleNonStreamingRequest, handleIncompleteResponse,
    h1, h2, h3, h4, h5, h6]

/-- A concrete request with one user turn and no system instruction. -/
def reqNoSI : GeminiRequest :=
  { contents :=
      [{ parts := [{ text := some "Hi", functionCall := none, functionResponse := none }],
         role := some "user" }],
    tools := none, toolConfig := none, generationConfig := none,
    safetySettings := none, systemInstruction := none }

/-- The augmenter's output on `reqNoSI`. -/
def augmentedReqNoSI : GeminiRequest :=
  { reqNoSI with
    systemInstruction :=
      some ({ parts := some [{ text := some FINISH_TOKEN_PROMPT, functionCall := none,
                               functionResponse := none }],
              role := some "user" }) }

/-- The continuation request built from `respHelloIncomplete` on top of
`augmentedReqNoSI`. -/
def retryReqW : GeminiRequest :=
  { augmentedReqNoSI with contents :=
      augmentedReqNoSI.contents ++
        [{ parts := [{ text := some ("Hello wor" ++ "\n\n" ++ RETRY_PROMPT),
                       functionCall := none, functionResponse := none }],
           role := some "user" }] }

/-- A send oracle that answers the initial request (one turn) with the
incomplete response and the continuation request (two turns) with the
continuation response. -/
def sendTwoPhase : GeminiRequest → SendOutcome := fun r =>
  if r.contents.length ≤ 1 then .ok 200 respHelloIncomplete
  else .ok 200 respHelloCont

/-- Witness for the amended C4 at the concrete scenario. -/
theorem C4_returns_combined_unstripped_witness :
    handleNonStreamingRequest reqNoSI sendTwoPhase = .success 200
      (combinedShape "ld![RESPONSE_FINISHED]" (some "model") (some "STOP") none
        (some "usage-2")) :=
  C4_returns_combined_unstripped reqNoSI sendTwoPhase augmentedReqNoSI reqNoSI
    200 respHelloIncomplete retryReqW 200 respHelloCont
    (combinedShape "ld![RESPONSE_FINISHED]" (some "model") (some "STOP") none
      (some "usage-2"))
    rfl rfl rfl rfl rfl rfl

/-- C4 counterexample: the returned body is the raw combined result — its
text still contains the finished marker, and the returned value differs
from the marker-stripped (cleaned) combined result, so the claim that the
caller receives the combined result with completion markers stripped is
false at this input. -/
theorem C4_counterexample :
    handleNonStreamingRequest reqNoSI sendTwoPhase = .success 200
      (combinedShape "ld![RESPONSE_FINISHED]" (some "model") (some "STOP") none
        (some "usage-2")) ∧
    jsIncludes "ld![RESPONSE_FINISHED]" FINISHED_TOKEN = true ∧
    handleNonStreamingRequest reqNoSI sendTwoPhase ≠ .success 200
      (cleanResponse (combinedShape "ld![RESPONSE_FINISHED]" (some "model")
        (some "STOP") none (some "usage-2"))) := by
  refine ⟨rfl, by decide, by decide⟩

/-- C7 (amended): an exception thrown while sending the continuation, or
while parsing/combining the continuation response, is absorbed and the
handler returns the original incomplete response with success status 200;
but the continuation-building step runs BEFORE the protecting try block,
so an exception thrown there propagates to the caller instead of being
absorbed. -/
theorem C7_continuation_fallback_except_building (incomplete : GeminiResponse)
    (orig : GeminiRequest) (send : GeminiRequest → SendOutcome) :
    (∀ e, createRetryRequest incomplete orig = .error e →
      handleIncompleteResponse incomplete orig send = .error e) ∧
    (∀ retryReq, createRetryRequest incomplete orig = .ok retryReq →
      send retryReq = .err →
      handleIncompleteResponse incomplete orig send = .ok (200, incomplete)) ∧
    (∀ retryReq status contResp e,
      createRetryRequest incomplete orig = .ok retryReq →
      send retryReq = .ok status contResp →
      combineResponses incomplete contResp = .error e →
      handleIncompleteResponse incomplete orig send = .ok (200, incomplete)) := by
  refine ⟨?_, ?_, ?_⟩
  · intro e he
    simp [handleIncompleteResponse, he]
  · intro retryReq h1 h2
    simp [handleIncompleteResponse, h1, h2]
  · intro retryReq status contResp e h1 h2 h3
    simp [handleIncompleteResponse, h1, h2, h3]

/-- A response with no candidates: the detector classifies it incomplete,
and the continuation builder throws on it. -/
def respNoCandidates : GeminiResponse := { candidates := [], usageMetadata := none }

/-- A send oracle that always returns the candidate-free response. -/
def sendEmpty : GeminiRequest → SendOutcome := fun _ => .ok 200 respNoCandidates

/-- C7 counterexample: when the incomplete response has no candidates,
the continuation BUILDING step throws; the exception is not absorbed (the
fallback does not run) and the caller receives a 500 error response, so
the claim that a continuation failure never reaches the caller as an
error is false at this input. -/
theorem C7_counterexample :
    isResponseComplete respNoCandidates = false ∧
    handleIncompleteResponse respNoCandidates augmentedReqNoSI sendEmpty =
      .error .typeError ∧
    handleNonStreamingRequest reqNoSI sendEmpty =
      .errorResp 500 "Gemini request failed" :=
  ⟨rfl, rfl, rfl⟩

/-! The stream transformer. -/

theorem forall₂_map_self {α β : Type} (R : α → β → Prop) (g : α → β)
    (h : ∀ a, R a (g a)) : ∀ L : List α, List.Forall₂ R L (L.map g)
  | [] => List.Forall₂.nil
  | a :: as => List.Forall₂.cons (h a) (forall₂_map_self R g h as)

/-- C3 (amended): for every decoded chunk, the transformer emits exactly
one output per KEPT input line, in input order (captured by the
`List.Forall₂` against the filtered line list).  A kept line is one whose
trimmed form is non-empty: blank separator lines are NOT preserved — the
line filter drops them before processing.  A kept line that does not
start with the event-data prefix passes through unchanged
(newline-terminated), and a kept data line whose payload fails to parse
is emitted unchanged (newline-terminated) with no thrown error. -/
theorem C3_line_handling (parseJson : String → ParseResult)
    (serialize : GeminiResponse → String) (text : String) :
    List.Forall₂ (fun l o =>
        (jsStartsWith l "data: " = false → o = l ++ "\n") ∧
        (jsStartsWith l "data: " = true → parseJson (jsSlice l 6) = .fail →
          o = l ++ "\n"))
      ((jsSplitNewlines text).filter fun line => jsTrim line ≠ "")
      (transformChunkLines parseJson serialize text) := by
  unfold transformChunkLines
  apply forall₂_map_self
  intro l
  constructor
  · intro h
    simp [transformLine, h]
  · intro h hp
    by_cases he : jsTrim (jsSlice l 6) = ""
    · simp [transformLine, h, he]
    · simp [transformLine, h, he, hp]

/-- A parse oracle on which every payload is a syntax error. -/
def parseFailAll : String → ParseResult := fun _ => .fail

/-- A serialization oracle (irrelevant to the counterexample). -/
def serializeNull : GeminiResponse → String := fun _ => ""

/-- C3 counterexample: the input chunk has three lines, the middle one a
blank separator line; the emitted output has only two lines — the blank
line is dropped by the `filter(line => line.trim())` step, so blank
separator lines are NOT preserved in the output. -/
theorem C3_counterexample :
    jsSplitNewlines "event: ping\n\nretry: 5" = ["event: ping", "", "retry: 5"] ∧
    transformChunkLines parseFailAll serializeNull "event: ping\n\nretry: 5" =
      ["event: ping\n", "retry: 5\n"] :=
  ⟨rfl, rfl⟩

/-! The cleanup passes. -/

/-- Relation between an input part and its streaming-cleaned output: a
missing or empty (falsy) text is left alone; otherwise the cleaned text
is obtained by removing the FIRST occurrence of the finished marker, then
the first occurrence of the incomplete marker, then the first occurrence
of the reminder string. -/
def PartCleanStream (p q : RespPart) : Prop :=
  match p.text with
  | none => q = p
  | some t =>
    if t = "" then q = p
    else ∃ r1 r2 r3, RemovesFirst FINISHED_TOKEN t r1 ∧
      RemovesFirst INCOMPLETE_TOKEN r1 r2 ∧
      RemovesFirst REMINDER_PROMPT r2 r3 ∧
      q = { p with text := some r3 }

/-- Same for the non-streaming cleanup, which additionally trims. -/
def PartCleanFull (p q : RespPart) : Prop :=
  match p.text with
  | none => q = p
  | some t =>
    if t = "" then q = p
    else ∃ r1 r2 r3, RemovesFirst FINISHED_TOKEN t r1 ∧
      RemovesFirst INCOMPLETE_TOKEN r1 r2 ∧
      RemovesFirst REMINDER_PROMPT r2 r3 ∧
      q = { p with text := some (jsTrim r3) }

theorem firstCandParts_eq_some (r : GeminiResponse) (ps : List RespPart) :
    firstCandParts r = some ps ↔
      ∃ c cs content, r.candidates = c :: cs ∧ c.content = some content ∧
        content.parts = some ps := by
  unfold firstCandParts
  cases hc : r.candidates with
  | nil => simp
  | cons c cs =>
    cases hct : c.content with
    | none => simp [hct]
    | some content => simp [hct]

/-- C8 (amended): for every chunk with a first candidate carrying content
and parts, each cleanup pass rewrites every text part by removing the
FIRST occurrence of the finished marker, then of the incomplete marker,
then of the reminder string — not every occurrence, so a part holding a
token several times keeps the later occurrences; the non-streaming
cleanup additionally trims each cleaned text.  Output parts correspond
one-to-one, in order, to input parts. -/
theorem C8_cleanup_first_occurrence (chunk : GeminiResponse)
    (parts : List RespPart) (hp : firstCandParts chunk = some parts) :
    (∃ outParts, firstCandParts (processStreamChunk chunk) = some outParts ∧
      List.Forall₂ PartCleanStream parts outParts) ∧
    (∃ outParts, firstCandParts (cleanResponse chunk) = some outParts ∧
      List.Forall₂ PartCleanFull parts outParts) := by
  obtain ⟨c, cs, content, hc, hct, hparts⟩ :=
    (firstCandParts_eq_some chunk parts).mp hp
  constructor
  · refine ⟨parts.map (fun part =>
      match part.text with
      | some t =>
        if t = "" then part
        else { part with
               text := some (jsReplace (jsReplace (jsReplace t FINISHED_TOKEN)
                               INCOMPLETE_TOKEN) REMINDER_PROMPT) }
      | none => part), ?_, ?_⟩
    · simp [processStreamChunk, firstCandParts, hc, hct, hparts]
    · apply forall₂_map_self
      intro p
      unfold PartCleanStream
      cases hpt : p.text with
      | none => simp [hpt]
      | some t =>
        by_cases ht : t = ""
        · simp [hpt, ht]
        · simp only [hpt, ht, if_false]
          exact ⟨_, _, _, jsReplace_removesFirst t FINISHED_TOKEN,
            jsReplace_removesFirst _ INCOMPLETE_TOKEN,
            jsReplace_removesFirst _ REMINDER_PROMPT, rfl⟩
  · refine ⟨parts.map (fun part =>
      match part.text with
      | some t =>
        if t = "" then part
        else { part with
               text := some (jsTrim (jsReplace (jsReplace (jsReplace t FINISHED_TOKEN)
                               INCOMPLETE_TOKEN) REMINDER_PROMPT)) }
      | none => part), ?_, ?_⟩
    · simp [cleanResponse, firstCandParts, hc, hct, hparts]
    · apply forall₂_map_self
      intro p
      unfold PartCleanFull
      cases hpt : p.text with
      | none => simp [hpt]
      | some t =>
        by_cases ht : t = ""
        · simp [hpt, ht]
        · simp only [hpt, ht, if_false]
          exact ⟨_, _, _, jsReplace_removesFirst t FINISHED_TOKEN,
            jsReplace_removesFirst _ INCOMPLETE_TOKEN,
            jsReplace_removesFirst _ REMINDER_PROMPT, rfl⟩

/-- Witness for the amended C8 at the concrete continuation response. -/
theorem C8_cleanup_first_occurrence_witness :
    (∃ outParts, firstCandParts (processStreamChunk respHelloCont) = some outParts ∧
      List.Forall₂ PartCleanStream
        [{ text := some "Hello world![RESPONSE_FINISHED]", functionCall := none }]
        outParts) ∧
    (∃ outParts, firstCandParts (cleanResponse respHelloCont) = some outParts ∧
      List.Forall₂ PartCleanFull
        [{ text := some "Hello world![RESPONSE_FINISHED]", functionCall := none }]
        outParts) :=
  C8_cleanup_first_occurrence respHelloCont
    [{ text := some "Hello world![RESPONSE_FINISHED]", functionCall := none }] rfl

/-- A chunk whose only text part contains the finished marker twice. -/
def chunkDoubleToken : GeminiResponse :=
  combinedShape ("[RESPONSE_FINISHED]" ++ "[RESPONSE_FINISHED]") none none none none

/-- C8 counterexample: on a part containing the finished marker twice,
both cleanup passes remove only the first occurrence, so the emitted
cleaned text part still contains the finished marker — refuting the claim
that no emitted cleaned text part contains any occurrence of the
tokens. -/
theorem C8_counterexample :
    firstCandText (processStreamChunk chunkDoubleToken) =
      some "[RESPONSE_FINISHED]" ∧
    firstCandText (cleanResponse chunkDoubleToken) =
      some "[RESPONSE_FINISHED]" ∧
    jsIncludes "[RESPONSE_FINISHED]" FINISHED_TOKEN = true :=
  ⟨rfl, rfl, by decide⟩
